import Mathlib

/-!
Verification of the security and admission core of the multi-tenant API
(`app/main.py`, `app/auth.py`, `app/config.py`): a shallow embedding of the
rate-limit admission check, the JWT issue/validate/refresh path, the
revocation (blacklist) set, and the tenant-scoped resource fetches, together
with theorems about them.

Python timestamps (`time.time()`, datetimes) are modelled as integers (exact
unix seconds, `ℤ`); on integral timestamps Python's `int()` truncation and
the spec's `ceil` are both the identity, and every comparison in the source
is exact. Python dicts are insertion-ordered association lists; raised
`HTTPException`s are `Except.error` results carrying status, detail and
headers.
-/

deriving instance DecidableEq for Except

namespace SampleApi

/-- Dict lookup (`d.get(k)`), modelled on an insertion-ordered assoc list. -/
def dget {α : Type} (db : List (String × α)) (k : String) : Option α :=
  (db.find? (fun p => p.1 == k)).map (fun p => p.2)

/-- Dict write (`d[k] = v`): replace in place if the key is present,
else append (Python dicts preserve insertion order). -/
def dset {α : Type} (db : List (String × α)) (k : String) (v : α) : List (String × α) :=
  if db.any (fun p => p.1 == k) then
    db.map (fun p => if p.1 == k then (k, v) else p)
  else db ++ [(k, v)]

/-- Dict deletion (`del d[k]`). -/
def ddel {α : Type} (db : List (String × α)) (k : String) : List (String × α) :=
  db.filter (fun p => ¬ p.1 == k)

/-- Dict values view (`d.values()`), in insertion order. -/
def dvalues {α : Type} (db : List (String × α)) : List α :=
  db.map (fun p => p.2)

/-- Application settings (`app/config.py`, class `Settings`). -/
structure Settings where
  api_env : String
  jwt_secret : String
  jwt_algorithm : String
  access_token_expire_minutes : ℕ
  refresh_token_expire_days : ℕ
  rate_limit_per_minute : ℕ
  default_page_size : ℕ
  max_page_size : ℕ
  max_file_size_mb : ℕ
  allowed_file_types : List String
deriving DecidableEq

/-- The global `settings` object with the defaults of `get_settings()`
(environment variables at their documented defaults). -/
def settings : Settings :=
  { api_env := "dev"
    jwt_secret := "dev_secret_change_in_production_!!!"
    jwt_algorithm := "HS256"
    access_token_expire_minutes := 30
    refresh_token_expire_days := 7
    rate_limit_per_minute := 10
    default_page_size := 20
    max_page_size := 100
    max_file_size_mb := 10
    allowed_file_types :=
      ["image/jpeg", "image/png", "image/gif", "application/pdf",
       "text/plain", "text/csv"] }

/-- A raised `fastapi.HTTPException`: status code, detail message, headers. -/
structure HTTPErr where
  status : ℕ
  detail : String
  headers : List (String × String)
deriving DecidableEq

/-- Python `str.lower()` on ASCII data, as used on header scheme and tenant
names: lower-case each character. -/
def strLower (s : String) : String := ⟨s.data.map Char.toLower⟩

/-- The `WWW-Authenticate: Bearer` header used by the token decode errors. -/
def wwwAuth : List (String × String) := [("WWW-Authenticate", "Bearer")]

-- ===========================================================================
-- Rate limiting (`check_rate_limit`, main.py lines 131-154)
-- ===========================================================================

/-- The `rate_limit_store` defaultdict: key string to timestamp list. -/
abbrev RateStore : Type := List (String × List ℤ)

/-- The rate-limit key `f"{user_id}:{method}:{path}"` of `check_rate_limit`
(`endpoint` is `f"{request.method}:{request.url.path}"`). -/
def rateKey (user_id method path : String) : String :=
  user_id ++ ":" ++ method ++ ":" ++ path

/-- The pruned window: entries of the key with `now - ts < 60` kept
(main.py lines 138-140). A missing key reads as the empty list
(defaultdict). -/
def prunedOf (store : RateStore) (key : String) (now : ℤ) : List ℤ :=
  ((dget store key).getD []).filter (fun ts => now - ts < 60)

/-- `check_rate_limit` (main.py lines 131-154): prune the key's window to the
trailing 60 seconds, write the pruned list back, reject with 429 when the
pruned count reaches the limit (the `X-RateLimit-Reset` header carries
`reset_time = int(rate_limit_store[key][0] + 60)`, the identity truncation on
integral timestamps), otherwise append `now` and admit. An empty pruned list
in the reject branch (possible only when the limit is 0) is the Python
`IndexError` of `rate_limit_store[key][0]`, surfaced as a 500. -/
def check_rate_limit (cfg : Settings) (store : RateStore)
    (method path user_id : String) (now : ℤ) : Except HTTPErr Unit × RateStore :=
  let key := rateKey user_id method path
  let pruned := prunedOf store key now
  if cfg.rate_limit_per_minute ≤ pruned.length then
    match pruned with
    | [] => (.error ⟨500, "Internal Server Error", []⟩, dset store key pruned)
    | oldest :: _ =>
        (.error ⟨429, "Rate limit exceeded",
          [("X-RateLimit-Limit", toString cfg.rate_limit_per_minute),
           ("X-RateLimit-Remaining", "0"),
           ("X-RateLimit-Reset", toString (oldest + 60))]⟩,
         dset store key pruned)
  else
    (.ok (), dset store key (pruned ++ [now]))

/-- Modelled from the spec: the retry hint the spec prescribes on rejection,
`ceil(oldest_remaining_timestamp + 60 - now)`, a relative number of seconds
(`ceil` is the identity on integral timestamps). Stated only to be compared
against what the code computes. -/
def retry_after_spec (oldest now : ℤ) : ℤ := oldest + 60 - now

/-- Run a sequence of calls of one user against one endpoint at the given
times, returning the admission outcomes in order together with the final
store. -/
def rateCalls (cfg : Settings) (store : RateStore) :
    List ℤ → List Bool × RateStore
  | [] => ([], store)
  | t :: ts =>
    let r := check_rate_limit cfg store "GET" "/api/v1/users" "u" t
    let rest := rateCalls cfg r.2 ts
    ((match r.1 with | .ok _ => true | .error _ => false) :: rest.1, rest.2)

-- ===========================================================================
-- Credential hashing (`hash_password` / `verify_password`, auth.py 30-41)
-- ===========================================================================

/-- A Python exception escaping a library call (here: bcrypt's
`ValueError` on a malformed hash). -/
inductive PyErr where
  | valueError
deriving DecidableEq

/-- Modelled from the bcrypt library: a hash string bcrypt accepts as
well-formed — a modular-crypt-format bcrypt hash, `$2a$`/`$2b$`/`$2y$`
prefix and the fixed 60-character length. Strings outside this shape make
`bcrypt.checkpw` raise `ValueError` ("Invalid salt" / "Invalid hashed_password"). -/
def isBcryptShaped (h : String) : Bool :=
  h.length == 60 &&
    ("$2a$".isPrefixOf h || "$2b$".isPrefixOf h || "$2y$".isPrefixOf h)

/-- The bcrypt digest computation is abstracted as an oracle: `matches
password hash` is the boolean outcome of recomputing the digest of
`password` under the hash's salt and comparing. The claims under
verification do not depend on the digest function itself. -/
def Matcher : Type := String → String → Bool

/-- Modelled from the bcrypt library: `bcrypt.checkpw` — raises `ValueError`
when the hash string is not bcrypt-shaped, otherwise returns the comparison
outcome. -/
def bcrypt_checkpw (matcher : Matcher) (password hashed : String) :
    Except PyErr Bool :=
  if isBcryptShaped hashed then .ok (matcher password hashed)
  else .error .valueError

/-- `verify_password` (auth.py lines 37-41): a direct call to
`bcrypt.checkpw` with no exception handling, so a `ValueError` raised on a
malformed hash propagates to the caller. -/
def verify_password (matcher : Matcher) (plain_password hashed_password : String) :
    Except PyErr Bool :=
  bcrypt_checkpw matcher plain_password hashed_password

-- ===========================================================================
-- Tokens (`auth.py` lines 13-88)
-- ===========================================================================

/-- A JWT claim set as built by this application: `user_id`, `tenant_id`,
optional `username`/`role` (present only on access tokens), `exp` in unix
seconds and `type` of `"access"` or `"refresh"`. -/
structure Payload where
  user_id : String
  tenant_id : String
  username : Option String
  role : Option String
  exp : ℤ
  type : String
deriving DecidableEq

/-- A signed token: the claim set together with the secret it was signed
with. `jwt.encode` is deterministic for HS256, so two tokens are the same
string exactly when payload and secret agree — token equality models string
equality. -/
structure Token where
  payload : Payload
  secret : String
deriving DecidableEq

/-- `TokenData` (auth.py lines 13-19): the validated principal. -/
structure TokenData where
  user_id : String
  tenant_id : String
  username : String
  role : String
  exp : ℤ
deriving DecidableEq

/-- `TokenPair` (auth.py lines 22-27). -/
structure TokenPair where
  access_token : Token
  refresh_token : Token
  token_type : String
  expires_in : ℕ
deriving DecidableEq

/-- `create_access_token` (auth.py lines 44-55): kind `access`, expiry
`now + access_token_expire_minutes` minutes, username and role included. -/
def create_access_token (user_id tenant_id username role : String) (now : ℤ) : Token :=
  { payload :=
      { user_id := user_id
        tenant_id := tenant_id
        username := some username
        role := some role
        exp := now + settings.access_token_expire_minutes * 60
        type := "access" }
    secret := settings.jwt_secret }

/-- `create_refresh_token` (auth.py lines 58-67): kind `refresh`, expiry
`now + refresh_token_expire_days` days, no username or role claim. -/
def create_refresh_token (user_id tenant_id : String) (now : ℤ) : Token :=
  { payload :=
      { user_id := user_id
        tenant_id := tenant_id
        username := none
        role := none
        exp := now + settings.refresh_token_expire_days * 86400
        type := "refresh" }
    secret := settings.jwt_secret }

/-- `decode_token` (auth.py lines 70-88): `jwt.decode` verifies the
signature first (`InvalidTokenError` becomes 401 "Invalid token"), then the
`exp` claim against the caller's clock with no leeway
(`ExpiredSignatureError` becomes 401 "Token has expired"). -/
def decode_token (t : Token) (now : ℤ) : Except HTTPErr Payload :=
  if t.secret ≠ settings.jwt_secret then
    .error ⟨401, "Invalid token", wwwAuth⟩
  else if t.payload.exp ≤ now then
    .error ⟨401, "Token has expired", wwwAuth⟩
  else
    .ok t.payload

/-- `get_current_user` (auth.py lines 91-130), after header splitting: the
credential is an optional `(scheme, token)` pair. Missing header, non-bearer
scheme, decode failure and non-access kind fail as in the source; a payload
of kind `access` that lacks a username or role claim (never produced by this
issuer) would be a Python `KeyError`, surfaced as a 500. -/
def get_current_user (authorization : Option (String × Token)) (now : ℤ) :
    Except HTTPErr TokenData :=
  match authorization with
  | none => .error ⟨401, "Missing authorization header", wwwAuth⟩
  | some (scheme, token) =>
    if strLower scheme ≠ "bearer" then
      .error ⟨401, "Invalid authentication scheme", wwwAuth⟩
    else
      match decode_token token now with
      | .error e => .error e
      | .ok payload =>
        if payload.type ≠ "access" then
          .error ⟨401, "Invalid token type", []⟩
        else
          match payload.username, payload.role with
          | some un, some r =>
              .ok { user_id := payload.user_id
                    tenant_id := payload.tenant_id
                    username := un
                    role := r
                    exp := payload.exp }
          | _, _ => .error ⟨500, "Internal Server Error", []⟩

/-- `require_admin` (auth.py lines 133-140). -/
def require_admin (authorization : Option (String × Token)) (now : ℤ) :
    Except HTTPErr TokenData :=
  match get_current_user authorization now with
  | .error e => .error e
  | .ok cu =>
    if cu.role ≠ "admin" then .error ⟨403, "Admin access required", []⟩
    else .ok cu

-- ===========================================================================
-- Application state (`main.py` lines 35-43) and record types
-- ===========================================================================

/-- A tenant record as stored in `tenants_db`. -/
structure TenantRec where
  id : String
  name : String
  created_at : ℤ
  is_active : Bool
deriving DecidableEq

/-- A user record as stored in `users_db`. -/
structure UserRec where
  id : String
  tenant_id : String
  username : String
  email : String
  full_name : String
  password_hash : String
  role : String
  created_at : ℤ
  updated_at : ℤ
  is_active : Bool
deriving DecidableEq

/-- A file metadata record as stored in `files_db`. -/
structure FileRec where
  id : String
  tenant_id : String
  filename : String
  content_type : String
  size_bytes : ℕ
  uploaded_by : String
  uploaded_at : ℤ
deriving DecidableEq

/-- The module-level mutable stores of `main.py` (lines 35-43). -/
structure AppState where
  tenants_db : List (String × TenantRec)
  users_db : List (String × UserRec)
  files_db : List (String × FileRec)
  file_storage : List (String × List ℕ)
  blacklisted_tokens : List Token
  rate_limit_store : RateStore
deriving DecidableEq

/-- The initial (and post-reset) state: every store empty. -/
def emptyState : AppState := ⟨[], [], [], [], [], []⟩

/-- `User` response model sans `password_hash` (main.py lines 89-100). -/
structure UserPublic where
  id : String
  tenant_id : String
  username : String
  email : String
  full_name : String
  role : String
  created_at : ℤ
  updated_at : ℤ
  is_active : Bool
deriving DecidableEq

/-- The `{k: v for k, v in u.items() if k != "password_hash"}` projection. -/
def toPublic (u : UserRec) : UserPublic :=
  ⟨u.id, u.tenant_id, u.username, u.email, u.full_name, u.role,
   u.created_at, u.updated_at, u.is_active⟩

/-- `TenantRegister` request model (main.py lines 51-57). -/
structure TenantRegister where
  tenant_name : String
  admin_email : String
  admin_username : String
  admin_password : String
deriving DecidableEq

/-- `UserCreate` request model (main.py lines 73-79). -/
structure UserCreate where
  username : String
  email : String
  full_name : String
  role : String
deriving DecidableEq

/-- `UserUpdate` request model (main.py lines 82-86). -/
structure UserUpdate where
  email : Option String
  full_name : Option String
deriving DecidableEq

/-- `PaginatedResponse` (main.py lines 103-111). -/
structure Paginated (α : Type) where
  data : List α
  page : ℕ
  page_size : ℕ
  total_count : ℕ
  has_next : Bool
  has_prev : Bool
deriving DecidableEq

/-- The bcrypt salted hash computation, abstracted: `hashpw password salt`
stands for `bcrypt.hashpw(password, salt)` with the fresh random salt of
`bcrypt.gensalt()` passed explicitly; `digestEq` is the `checkpw` digest
comparison oracle. -/
structure Crypto where
  hashpw : String → String → String
  digestEq : Matcher

/-- `hash_password` (auth.py lines 30-34) with the random salt explicit. -/
def hash_password (crypto : Crypto) (password salt : String) : String :=
  crypto.hashpw password salt

-- ===========================================================================
-- Endpoints (`main.py`)
-- ===========================================================================

/-- The shared prelude of every authenticated, rate-limited endpoint: the
`get_current_user` dependency resolves the principal, then the handler calls
`check_rate_limit` before its body runs. Any failure leaves the remaining
stores untouched (the rate store keeps the pruned window written back by the
check). -/
def authedStep {α : Type} (s : AppState) (authorization : Option (String × Token))
    (now : ℤ) (method path : String)
    (body : TokenData → AppState → Except HTTPErr α × AppState) :
    Except HTTPErr α × AppState :=
  match get_current_user authorization now with
  | .error e => (.error e, s)
  | .ok cu =>
    match check_rate_limit settings s.rate_limit_store method path cu.user_id now with
    | (.error e, st) => (.error e, { s with rate_limit_store := st })
    | (.ok _, st) => body cu { s with rate_limit_store := st }

/-- The shared prelude of the admin-only endpoints: `require_admin`
dependency, then `check_rate_limit`. -/
def adminStep {α : Type} (s : AppState) (authorization : Option (String × Token))
    (now : ℤ) (method path : String)
    (body : TokenData → AppState → Except HTTPErr α × AppState) :
    Except HTTPErr α × AppState :=
  match require_admin authorization now with
  | .error e => (.error e, s)
  | .ok cu =>
    match check_rate_limit settings s.rate_limit_store method path cu.user_id now with
    | (.error e, st) => (.error e, { s with rate_limit_store := st })
    | (.ok _, st) => body cu { s with rate_limit_store := st }

/-- `health_check` (main.py lines 162-170): no state touched. -/
def health_check (s : AppState) : Except HTTPErr Unit × AppState :=
  (.ok (), s)

/-- Result of `register_tenant`. -/
structure RegisterResult where
  tenant_id : String
  admin_user_id : String
deriving DecidableEq

/-- `register_tenant` (main.py lines 173-222): reject duplicate tenant name
(case-insensitive) or duplicate admin username with 409, else create the
tenant and its admin user. The generated `uuid4` ids and the bcrypt salt are
explicit inputs. -/
def register_tenant (crypto : Crypto) (s : AppState) (d : TenantRegister)
    (tenant_id user_id salt : String) (now : ℤ) :
    Except HTTPErr RegisterResult × AppState :=
  if (dvalues s.tenants_db).any (fun t => strLower t.name == strLower d.tenant_name) then
    (.error ⟨409, "Tenant \x27" ++ d.tenant_name ++ "\x27 already exists", []⟩, s)
  else if (dvalues s.users_db).any (fun u => u.username == d.admin_username) then
    (.error ⟨409, "Username \x27" ++ d.admin_username ++ "\x27 already exists", []⟩, s)
  else
    let tenant : TenantRec := ⟨tenant_id, d.tenant_name, now, true⟩
    let admin : UserRec :=
      ⟨user_id, tenant_id, d.admin_username, d.admin_email, "Admin User",
       hash_password crypto d.admin_password salt, "admin", now, now, true⟩
    (.ok ⟨tenant_id, user_id⟩,
     { s with tenants_db := dset s.tenants_db tenant_id tenant
              users_db := dset s.users_db user_id admin })

/-- `login` (main.py lines 225-266): find the first user with the given
username, verify the password (an escaping bcrypt `ValueError` would be a
500), reject inactive accounts, else issue an access/refresh pair. No store
is mutated. -/
def login (crypto : Crypto) (s : AppState) (username password : String) (now : ℤ) :
    Except HTTPErr TokenPair × AppState :=
  match (dvalues s.users_db).find? (fun u => u.username == username) with
  | none => (.error ⟨401, "Invalid username or password", []⟩, s)
  | some user =>
    match verify_password crypto.digestEq password user.password_hash with
    | .error _ => (.error ⟨500, "Internal Server Error", []⟩, s)
    | .ok ok =>
      if ¬ ok then (.error ⟨401, "Invalid username or password", []⟩, s)
      else if ¬ user.is_active then
        (.error ⟨403, "User account is deactivated", []⟩, s)
      else
        (.ok ⟨create_access_token user.id user.tenant_id user.username user.role now,
              create_refresh_token user.id user.tenant_id now,
              "bearer", settings.access_token_expire_minutes * 60⟩, s)

/-- `refresh_tokens` (main.py lines 269-309): decode (signature, then
expiry), check `type == "refresh"`, check the blacklist, re-read the user
record, issue a fresh pair and blacklist the presented token in the same
operation. -/
def refresh_tokens (s : AppState) (t : Token) (now : ℤ) :
    Except HTTPErr TokenPair × AppState :=
  match decode_token t now with
  | .error e => (.error e, s)
  | .ok payload =>
    if payload.type ≠ "refresh" then
      (.error ⟨401, "Invalid token type", []⟩, s)
    else if t ∈ s.blacklisted_tokens then
      (.error ⟨401, "Token has been revoked", []⟩, s)
    else
      match dget s.users_db payload.user_id with
      | none => (.error ⟨401, "User not found or inactive", []⟩, s)
      | some user =>
        if ¬ user.is_active then
          (.error ⟨401, "User not found or inactive", []⟩, s)
        else
          (.ok ⟨create_access_token user.id user.tenant_id user.username user.role now,
                create_refresh_token user.id user.tenant_id now,
                "bearer", settings.access_token_expire_minutes * 60⟩,
           { s with blacklisted_tokens := t :: s.blacklisted_tokens })

/-- `logout` (main.py lines 312-320): the `get_current_user` dependency runs,
the body only returns a message — no store is read or written. -/
def logout (s : AppState) (authorization : Option (String × Token)) (now : ℤ) :
    Except HTTPErr String × AppState :=
  (match get_current_user authorization now with
   | .error e => .error e
   | .ok _ => .ok "Logged out successfully", s)

/-- The 404 raised by the user endpoints, byte-identical for a missing user
and for a user of a foreign tenant (main.py lines 427-438 and twins). -/
def userNotFound (user_id : String) : HTTPErr :=
  ⟨404, "User with id \x27" ++ user_id ++ "\x27 not found", []⟩

/-- The 404 raised by the file endpoints, byte-identical for a missing file
and for a file of a foreign tenant (main.py lines 655-666 and twins). -/
def fileNotFound (file_id : String) : HTTPErr :=
  ⟨404, "File with id \x27" ++ file_id ++ "\x27 not found", []⟩

/-- `list_users` (main.py lines 328-367). The model takes `page ≥ 1` slices
as `drop`/`take` (Python negative-index slicing for `page = 0` is not
modelled). -/
def list_users (s : AppState) (authorization : Option (String × Token))
    (page page_size : ℕ) (active_only : Bool) (now : ℤ) :
    Except HTTPErr (Paginated UserPublic) × AppState :=
  authedStep s authorization now "GET" "/api/v1/users" (fun cu s2 =>
    let tenant_users := (dvalues s2.users_db).filter (fun u => u.tenant_id == cu.tenant_id)
    let tenant_users :=
      if active_only then tenant_users.filter (fun u => u.is_active) else tenant_users
    let total_count := tenant_users.length
    let start_idx := (page - 1) * page_size
    let page_data := (tenant_users.drop start_idx).take page_size
    (.ok ⟨page_data.map toPublic, page, page_size, total_count,
          decide (start_idx + page_size < total_count), decide (1 < page)⟩, s2))

/-- The duplicate check of `create_user` (main.py lines 380-391): the first
stored user matching the new username or email determines the 409, username
clash reported first for that user. -/
def dupUserError (db : List (String × UserRec)) (d : UserCreate) : Option HTTPErr :=
  match (dvalues db).find? (fun u => u.username == d.username || u.email == d.email) with
  | none => none
  | some u =>
    if u.username == d.username then
      some ⟨409, "Username \x27" ++ d.username ++ "\x27 already exists", []⟩
    else
      some ⟨409, "Email \x27" ++ d.email ++ "\x27 already exists", []⟩

/-- The user record `create_user` inserts (main.py lines 393-409), with the
generated id and bcrypt salt explicit. -/
def newUserRec (crypto : Crypto) (cu : TokenData) (d : UserCreate)
    (user_id salt : String) (now : ℤ) : UserRec :=
  ⟨user_id, cu.tenant_id, d.username, d.email, d.full_name,
   hash_password crypto "TempPassword123!" salt, d.role, now, now, true⟩

/-- `create_user` (main.py lines 370-412). -/
def create_user (crypto : Crypto) (s : AppState)
    (authorization : Option (String × Token)) (d : UserCreate)
    (user_id salt : String) (now : ℤ) :
    Except HTTPErr UserPublic × AppState :=
  authedStep s authorization now "POST" "/api/v1/users" (fun cu s2 =>
    match dupUserError s2.users_db d with
    | some e => (.error e, s2)
    | none =>
      let u := newUserRec crypto cu d user_id salt now
      (.ok (toPublic u), { s2 with users_db := dset s2.users_db user_id u }))

/-- `get_user` (main.py lines 415-440): missing user and foreign-tenant user
raise the same `userNotFound`. -/
def get_user (s : AppState) (authorization : Option (String × Token))
    (user_id : String) (now : ℤ) : Except HTTPErr UserPublic × AppState :=
  authedStep s authorization now "GET" ("/api/v1/users/" ++ user_id) (fun cu s2 =>
    match dget s2.users_db user_id with
    | none => (.error (userNotFound user_id), s2)
    | some user =>
      if user.tenant_id ≠ cu.tenant_id then (.error (userNotFound user_id), s2)
      else (.ok (toPublic user), s2))

/-- The field updates of `update_user` (main.py lines 478-484): a provided
email replaces, a provided full name replaces, `updated_at` is refreshed. -/
def applyUserUpdate (user : UserRec) (d : UserUpdate) (now : ℤ) : UserRec :=
  let u1 := match d.email with | some e => { user with email := e } | none => user
  let u2 := match d.full_name with | some fn => { u1 with full_name := fn } | none => u1
  { u2 with updated_at := now }

/-- `update_user` (main.py lines 443-486). -/
def update_user (s : AppState) (authorization : Option (String × Token))
    (user_id : String) (d : UserUpdate) (now : ℤ) :
    Except HTTPErr UserPublic × AppState :=
  authedStep s authorization now "PUT" ("/api/v1/users/" ++ user_id) (fun cu s2 =>
    match dget s2.users_db user_id with
    | none => (.error (userNotFound user_id), s2)
    | some user =>
      if user.tenant_id ≠ cu.tenant_id then (.error (userNotFound user_id), s2)
      else
        let finish := fun (_ : Unit) =>
          let u2 := applyUserUpdate user d now
          ((.ok (toPublic u2) : Except HTTPErr UserPublic),
           { s2 with users_db := dset s2.users_db user_id u2 })
        match d.email with
        | some e =>
          if (¬ (e == user.email)) &&
              s2.users_db.any (fun p => (¬ (p.1 == user_id)) && p.2.email == e) then
            (.error ⟨409, "Email \x27" ++ e ++ "\x27 already exists", []⟩, s2)
          else finish ()
        | none => finish ())

/-- `delete_user` (main.py lines 489-515): soft delete, same twin 404s. -/
def delete_user (s : AppState) (authorization : Option (String × Token))
    (user_id : String) (now : ℤ) : Except HTTPErr Unit × AppState :=
  authedStep s authorization now "DELETE" ("/api/v1/users/" ++ user_id) (fun cu s2 =>
    match dget s2.users_db user_id with
    | none => (.error (userNotFound user_id), s2)
    | some user =>
      if user.tenant_id ≠ cu.tenant_id then (.error (userNotFound user_id), s2)
      else
        let u2 := { user with is_active := false, updated_at := now }
        (.ok (), { s2 with users_db := dset s2.users_db user_id u2 }))

/-- `create_users_bulk` (main.py lines 518-587). `asyncio.gather` starts the
per-user coroutines in order; each runs its duplicate checks against the
pre-call `users_db` before its first `await`, and the inserts land after the
sleeps, so every non-conflicting entry is inserted even when some entry
conflicts (the raised 409 is the first conflict in list order). The batch
entries carry their generated ids and salts. -/
def create_users_bulk (crypto : Crypto) (s : AppState)
    (authorization : Option (String × Token))
    (ds : List (UserCreate × String × String)) (now : ℤ) :
    Except HTTPErr (List UserPublic) × AppState :=
  authedStep s authorization now "POST" "/api/v1/users/bulk" (fun cu s2 =>
    if 50 < ds.length then
      (.error ⟨400, "Cannot create more than 50 users at once", []⟩, s2)
    else
      let inserted := ds.filterMap (fun e =>
        if (dupUserError s2.users_db e.1).isSome then none
        else some (e.2.1, newUserRec crypto cu e.1 e.2.1 e.2.2 now))
      let s3 :=
        { s2 with users_db := inserted.foldl (fun db p => dset db p.1 p.2) s2.users_db }
      match ds.findSome? (fun e => dupUserError s2.users_db e.1) with
      | some e => (.error e, s3)
      | none => (.ok (inserted.map (fun p => toPublic p.2)), s3))

/-- `upload_file` (main.py lines 595-640): content-type allow-list, size cap
(`len/2^20 > max_file_size_mb`, stated as the equivalent integer comparison;
the 413 detail's float formatting is abbreviated), then store metadata and
bytes under the generated id. -/
def upload_file (s : AppState) (authorization : Option (String × Token))
    (filename content_type : String) (content : List ℕ) (file_id : String)
    (now : ℤ) : Except HTTPErr FileRec × AppState :=
  authedStep s authorization now "POST" "/api/v1/files/upload" (fun cu s2 =>
    if ¬ (settings.allowed_file_types.contains content_type) then
      (.error ⟨415, "File type \x27" ++ content_type ++ "\x27 not allowed", []⟩, s2)
    else if settings.max_file_size_mb * 1048576 < content.length then
      (.error ⟨413, "File size exceeds limit", []⟩, s2)
    else
      let meta : FileRec :=
        ⟨file_id, cu.tenant_id, filename, content_type, content.length, cu.user_id, now⟩
      (.ok meta,
       { s2 with files_db := dset s2.files_db file_id meta
                 file_storage := dset s2.file_storage file_id content }))

/-- `download_file` (main.py lines 643-679): missing file and foreign-tenant
file raise the same `fileNotFound`; missing or empty stored bytes (Python
`if not content`) raise a distinct 404. -/
def download_file (s : AppState) (authorization : Option (String × Token))
    (file_id : String) (now : ℤ) : Except HTTPErr (FileRec × List ℕ) × AppState :=
  authedStep s authorization now "GET" ("/api/v1/files/" ++ file_id) (fun cu s2 =>
    match dget s2.files_db file_id with
    | none => (.error (fileNotFound file_id), s2)
    | some meta =>
      if meta.tenant_id ≠ cu.tenant_id then (.error (fileNotFound file_id), s2)
      else
        match dget s2.file_storage file_id with
        | none => (.error ⟨404, "File content not found", []⟩, s2)
        | some content =>
          if content.isEmpty then (.error ⟨404, "File content not found", []⟩, s2)
          else (.ok (meta, content), s2))

/-- `list_files` (main.py lines 682-711). -/
def list_files (s : AppState) (authorization : Option (String × Token))
    (page page_size : ℕ) (now : ℤ) :
    Except HTTPErr (Paginated FileRec) × AppState :=
  authedStep s authorization now "GET" "/api/v1/files" (fun cu s2 =>
    let tenant_files := (dvalues s2.files_db).filter (fun f => f.tenant_id == cu.tenant_id)
    let total_count := tenant_files.length
    let start_idx := (page - 1) * page_size
    let page_data := (tenant_files.drop start_idx).take page_size
    (.ok ⟨page_data, page, page_size, total_count,
          decide (start_idx + page_size < total_count), decide (1 < page)⟩, s2))

/-- `delete_file` (main.py lines 714-742): twin 404s, then remove the
metadata and (when present) the stored bytes. -/
def delete_file (s : AppState) (authorization : Option (String × Token))
    (file_id : String) (now : ℤ) : Except HTTPErr Unit × AppState :=
  authedStep s authorization now "DELETE" ("/api/v1/files/" ++ file_id) (fun cu s2 =>
    match dget s2.files_db file_id with
    | none => (.error (fileNotFound file_id), s2)
    | some meta =>
      if meta.tenant_id ≠ cu.tenant_id then (.error (fileNotFound file_id), s2)
      else
        (.ok (),
         { s2 with files_db := ddel s2.files_db file_id
                   file_storage := ddel s2.file_storage file_id }))

/-- `list_all_tenants` (main.py lines 750-758), admin only. -/
def list_all_tenants (s : AppState) (authorization : Option (String × Token))
    (now : ℤ) : Except HTTPErr (List TenantRec) × AppState :=
  adminStep s authorization now "GET" "/api/v1/admin/tenants" (fun _ s2 =>
    (.ok (dvalues s2.tenants_db), s2))

/-- `get_system_stats` (main.py lines 761-774), admin only: tenant, user and
file counts plus total stored bytes. -/
def get_system_stats (s : AppState) (authorization : Option (String × Token))
    (now : ℤ) : Except HTTPErr (ℕ × ℕ × ℕ × ℕ) × AppState :=
  adminStep s authorization now "GET" "/api/v1/admin/stats" (fun _ s2 =>
    (.ok (s2.tenants_db.length, s2.users_db.length, s2.files_db.length,
          ((dvalues s2.file_storage).map List.length).sum), s2))

/-- `reset_all_data` (main.py lines 782-791): clears every store, the
blacklist included. -/
def reset_all_data (_ : AppState) : Except HTTPErr Unit × AppState :=
  (.ok (), emptyState)

-- ===========================================================================
-- The operations the program exposes, as one step relation
-- ===========================================================================

/-- One inbound call to any endpoint the program exposes, with the
request-scoped inputs (credential, body, generated uuids/salts, clock)
carried by the constructor. -/
inductive Op where
  | health
  | register (d : TenantRegister) (tenant_id user_id salt : String) (now : ℤ)
  | login (username password : String) (now : ℤ)
  | refresh (t : Token) (now : ℤ)
  | logout (auth : Option (String × Token)) (now : ℤ)
  | listUsers (auth : Option (String × Token)) (page page_size : ℕ)
      (active_only : Bool) (now : ℤ)
  | createUser (auth : Option (String × Token)) (d : UserCreate)
      (user_id salt : String) (now : ℤ)
  | getUser (auth : Option (String × Token)) (user_id : String) (now : ℤ)
  | updateUser (auth : Option (String × Token)) (user_id : String)
      (d : UserUpdate) (now : ℤ)
  | deleteUser (auth : Option (String × Token)) (user_id : String) (now : ℤ)
  | createUsersBulk (auth : Option (String × Token))
      (ds : List (UserCreate × String × String)) (now : ℤ)
  | uploadFile (auth : Option (String × Token)) (filename content_type : String)
      (content : List ℕ) (file_id : String) (now : ℤ)
  | downloadFile (auth : Option (String × Token)) (file_id : String) (now : ℤ)
  | listFiles (auth : Option (String × Token)) (page page_size : ℕ) (now : ℤ)
  | deleteFile (auth : Option (String × Token)) (file_id : String) (now : ℤ)
  | adminTenants (auth : Option (String × Token)) (now : ℤ)
  | adminStats (auth : Option (String × Token)) (now : ℤ)
  | reset
deriving DecidableEq

/-- The state transition of one call: the post-state of the matching
endpoint, the response discarded. -/
def step (crypto : Crypto) (op : Op) (s : AppState) : AppState :=
  match op with
  | .health => (health_check s).2
  | .register d tid uid salt now => (register_tenant crypto s d tid uid salt now).2
  | .login un pw now => (login crypto s un pw now).2
  | .refresh t now => (refresh_tokens s t now).2
  | .logout auth now => (logout s auth now).2
  | .listUsers auth p ps ao now => (list_users s auth p ps ao now).2
  | .createUser auth d uid salt now => (create_user crypto s auth d uid salt now).2
  | .getUser auth uid now => (get_user s auth uid now).2
  | .updateUser auth uid d now => (update_user s auth uid d now).2
  | .deleteUser auth uid now => (delete_user s auth uid now).2
  | .createUsersBulk auth ds now => (create_users_bulk crypto s auth ds now).2
  | .uploadFile auth fn ct c fid now => (upload_file s auth fn ct c fid now).2
  | .downloadFile auth fid now => (download_file s auth fid now).2
  | .listFiles auth p ps now => (list_files s auth p ps now).2
  | .deleteFile auth fid now => (delete_file s auth fid now).2
  | .adminTenants auth now => (list_all_tenants s auth now).2
  | .adminStats auth now => (get_system_stats s auth now).2
  | .reset => (reset_all_data s).2

-- ===========================================================================
-- Theorems
-- ===========================================================================

/-- An authenticated rate-limited endpoint whose body leaves the blacklist
alone leaves the blacklist alone. -/
theorem authedStep_blacklisted {α : Type} (s : AppState)
    (auth : Option (String × Token)) (now : ℤ) (m p : String)
    (body : TokenData → AppState → Except HTTPErr α × AppState)
    (hbody : ∀ cu s2, ((body cu s2).2).blacklisted_tokens = s2.blacklisted_tokens) :
    ((authedStep s auth now m p body).2).blacklisted_tokens = s.blacklisted_tokens := by
  unfold authedStep
  cases get_current_user auth now with
  | error e => rfl
  | ok cu =>
    rcases h : check_rate_limit settings s.rate_limit_store m p cu.user_id now with ⟨r, st⟩
    cases r with
    | error e => simp [h]
    | ok _ => simp [h, hbody cu]

/-- The admin variant of `authedStep_blacklisted`. -/
theorem adminStep_blacklisted {α : Type} (s : AppState)
    (auth : Option (String × Token)) (now : ℤ) (m p : String)
    (body : TokenData → AppState → Except HTTPErr α × AppState)
    (hbody : ∀ cu s2, ((body cu s2).2).blacklisted_tokens = s2.blacklisted_tokens) :
    ((adminStep s auth now m p body).2).blacklisted_tokens = s.blacklisted_tokens := by
  unfold adminStep
  cases require_admin auth now with
  | error e => rfl
  | ok cu =>
    rcases h : check_rate_limit settings s.rate_limit_store m p cu.user_id now with ⟨r, st⟩
    cases r with
    | error e => simp [h]
    | ok _ => simp [h, hbody cu]

/-- `refresh_tokens` either leaves the blacklist alone or pushes the
presented token onto it. -/
theorem refresh_tokens_blacklisted (s : AppState) (t : Token) (now : ℤ) :
    ((refresh_tokens s t now).2).blacklisted_tokens = s.blacklisted_tokens ∨
    ((refresh_tokens s t now).2).blacklisted_tokens = t :: s.blacklisted_tokens := by
  unfold refresh_tokens
  rcases decode_token t now with e | payload
  · exact Or.inl rfl
  · dsimp only
    split
    · exact Or.inl rfl
    · split
      · exact Or.inl rfl
      · rcases dget s.users_db payload.user_id with _ | user
        · exact Or.inl rfl
        · dsimp only
          split
          · exact Or.inl rfl
          · exact Or.inr rfl

/-- Every operation except the test-only `/test/reset` grows (or keeps) the
revoked-token set: the case analysis behind C6 and C9. -/
theorem step_blacklist_mono (crypto : Crypto) (op : Op) (s : AppState)
    (hop : op ≠ Op.reset) :
    s.blacklisted_tokens ⊆ (step crypto op s).blacklisted_tokens := by
  have keep : ∀ t : AppState, t.blacklisted_tokens = s.blacklisted_tokens →
      s.blacklisted_tokens ⊆ t.blacklisted_tokens := by
    intro t ht; rw [ht]; exact fun x hx => hx
  have hbody : ∀ {α : Type} (auth : Option (String × Token)) (now : ℤ) (m p : String)
      (body : TokenData → AppState → Except HTTPErr α × AppState),
      (∀ cu s2, ((body cu s2).2).blacklisted_tokens = s2.blacklisted_tokens) →
      s.blacklisted_tokens ⊆ ((authedStep s auth now m p body).2).blacklisted_tokens :=
    fun auth now m p body h => keep _ (authedStep_blacklisted s auth now m p body h)
  have habody : ∀ {α : Type} (auth : Option (String × Token)) (now : ℤ) (m p : String)
      (body : TokenData → AppState → Except HTTPErr α × AppState),
      (∀ cu s2, ((body cu s2).2).blacklisted_tokens = s2.blacklisted_tokens) →
      s.blacklisted_tokens ⊆ ((adminStep s auth now m p body).2).blacklisted_tokens :=
    fun auth now m p body h => keep _ (adminStep_blacklisted s auth now m p body h)
  cases op with
  | health => exact keep _ rfl
  | register d tid uid salt now =>
    refine keep _ ?_
    simp only [step]
    unfold register_tenant
    (repeat' split) <;> rfl
  | login un pw now =>
    refine keep _ ?_
    simp only [step]
    unfold login
    (repeat' split) <;> rfl
  | refresh t now =>
    simp only [step]
    rcases refresh_tokens_blacklisted s t now with h | h
    · rw [h]; exact fun x hx => hx
    · rw [h]; exact fun x hx => List.mem_cons_of_mem _ hx
  | logout auth now => exact keep _ rfl
  | listUsers auth p ps ao now =>
    simp only [step]
    unfold list_users
    exact hbody _ _ _ _ _ (fun cu s2 => rfl)
  | createUser auth d uid salt now =>
    simp only [step]
    unfold create_user
    exact hbody _ _ _ _ _ (fun cu s2 => by (repeat' split) <;> rfl)
  | getUser auth uid now =>
    simp only [step]
    unfold get_user
    exact hbody _ _ _ _ _ (fun cu s2 => by (repeat' split) <;> rfl)
  | updateUser auth uid d now =>
    simp only [step]
    unfold update_user
    exact hbody _ _ _ _ _ (fun cu s2 => by (repeat' split) <;> rfl)
  | deleteUser auth uid now =>
    simp only [step]
    unfold delete_user
    exact hbody _ _ _ _ _ (fun cu s2 => by (repeat' split) <;> rfl)
  | createUsersBulk auth ds now =>
    simp only [step]
    unfold create_users_bulk
    exact hbody _ _ _ _ _ (fun cu s2 => by (repeat' split) <;> rfl)
  | uploadFile auth fn ct c fid now =>
    simp only [step]
    unfold upload_file
    exact hbody _ _ _ _ _ (fun cu s2 => by (repeat' split) <;> rfl)
  | downloadFile auth fid now =>
    simp only [step]
    unfold download_file
    exact hbody _ _ _ _ _ (fun cu s2 => by (repeat' split) <;> rfl)
  | listFiles auth p ps now =>
    simp only [step]
    unfold list_files
    exact hbody _ _ _ _ _ (fun cu s2 => rfl)
  | deleteFile auth fid now =>
    simp only [step]
    unfold delete_file
    exact hbody _ _ _ _ _ (fun cu s2 => by (repeat' split) <;> rfl)
  | adminTenants auth now =>
    simp only [step]
    unfold list_all_tenants
    exact habody _ _ _ _ _ (fun cu s2 => rfl)
  | adminStats auth now =>
    simp only [step]
    unfold get_system_stats
    exact habody _ _ _ _ _ (fun cu s2 => rfl)
  | reset => exact absurd rfl hop

/-- C1: for every inbound request whose key window, after pruning to
timestamps newer than `now - 60`, holds at least the configured limit of
entries, `check_rate_limit` rejects with a 429; when the pruned count is
strictly below the limit it admits and appends `now` to the key's sequence.
Concretely, with the default limit of 10, ten calls inside one 60-second
window are admitted, the 11th is rejected, and a call made after the window
has passed is admitted again. -/
theorem rate_admission_correct :
    (∀ (cfg : Settings) (store : RateStore) (m p uid : String) (now : ℤ),
      1 ≤ cfg.rate_limit_per_minute →
      (cfg.rate_limit_per_minute ≤ (prunedOf store (rateKey uid m p) now).length →
        ∃ e : HTTPErr, (check_rate_limit cfg store m p uid now).1 = .error e ∧
          e.status = 429 ∧ e.detail = "Rate limit exceeded") ∧
      ((prunedOf store (rateKey uid m p) now).length < cfg.rate_limit_per_minute →
        (check_rate_limit cfg store m p uid now).1 = .ok () ∧
        (check_rate_limit cfg store m p uid now).2 =
          dset store (rateKey uid m p)
            (prunedOf store (rateKey uid m p) now ++ [now]))) ∧
    (rateCalls settings [] [0, 1, 2, 3, 4, 5, 6, 7, 8, 9, 10, 70]).1 =
      [true, true, true, true, true, true, true, true, true, true, false, true] := by
  refine ⟨fun cfg store m p uid now hlim => ⟨fun hge => ?_, fun hlt => ?_⟩, by decide⟩
  · cases hp : prunedOf store (rateKey uid m p) now with
    | nil => rw [hp] at hge; simp at hge; omega
    | cons oldest rest =>
      rw [hp] at hge
      refine ⟨⟨429, "Rate limit exceeded",
        [("X-RateLimit-Limit", toString cfg.rate_limit_per_minute),
         ("X-RateLimit-Remaining", "0"),
         ("X-RateLimit-Reset", toString (oldest + 60))]⟩, ?_, rfl, rfl⟩
      simp only [check_rate_limit, hp, if_pos hge]
  · have hne : ¬ cfg.rate_limit_per_minute ≤ (prunedOf store (rateKey uid m p) now).length :=
      not_le.mpr hlt
    constructor <;> simp only [check_rate_limit, if_neg hne]

/-- Witness for C1 at a concrete input: an empty window admits a call under
the default settings. -/
theorem rate_admission_correct_witness :
    (check_rate_limit settings [] "GET" "/api/v1/users" "u" 0).1 = .ok () :=
  ((rate_admission_correct.1 settings [] "GET" "/api/v1/users" "u" 0
    (by decide)).2 (by decide)).1

/-- C2 counterexample: at a concrete rejected check (window `[50..59]`, limit
10, `now = 100`) the hint the code returns in `X-RateLimit-Reset` is the
absolute timestamp 110 (`int(oldest + 60)`), while the spec's formula
`ceil(oldest_remaining_timestamp + 60 - now)` yields the relative 10; the
two disagree. -/
theorem rate_hint_counterexample :
    (check_rate_limit settings
        [("u:GET:/api/v1/users", [50, 51, 52, 53, 54, 55, 56, 57, 58, 59])]
        "GET" "/api/v1/users" "u" 100).1 =
      .error ⟨429, "Rate limit exceeded",
        [("X-RateLimit-Limit", "10"), ("X-RateLimit-Remaining", "0"),
         ("X-RateLimit-Reset", "110")]⟩ ∧
    retry_after_spec 50 100 = 10 ∧ (110 : ℤ) ≠ 10 := by decide

/-- C2 (amended): on every rejected rate-limit check the hint returned in
the `X-RateLimit-Reset` header is `int(oldest_remaining_timestamp + 60)` —
an absolute reset timestamp, not the relative `ceil(oldest + 60 - now)` —
and that timestamp lies strictly in the future (`now < oldest + 60`). -/
theorem rate_reject_hint (cfg : Settings) (store : RateStore)
    (m p uid : String) (now oldest : ℤ) (rest : List ℤ)
    (hp : prunedOf store (rateKey uid m p) now = oldest :: rest)
    (hge : cfg.rate_limit_per_minute ≤ (prunedOf store (rateKey uid m p) now).length) :
    (check_rate_limit cfg store m p uid now).1 =
      .error ⟨429, "Rate limit exceeded",
        [("X-RateLimit-Limit", toString cfg.rate_limit_per_minute),
         ("X-RateLimit-Remaining", "0"),
         ("X-RateLimit-Reset", toString (oldest + 60))]⟩ ∧
    now < oldest + 60 := by
  rw [hp] at hge
  constructor
  · simp only [check_rate_limit, hp, if_pos hge]
  · have hmem : oldest ∈ prunedOf store (rateKey uid m p) now := by
      rw [hp]; exact List.mem_cons_self _ _
    have := List.of_mem_filter hmem
    simp at this
    omega

/-- Witness for the amended C2 at a concrete input. -/
theorem rate_reject_hint_witness :
    (check_rate_limit settings
        [("u:GET:/api/v1/users", [50, 51, 52, 53, 54, 55, 56, 57, 58, 59])]
        "GET" "/api/v1/users" "u" 100).1 =
      .error ⟨429, "Rate limit exceeded",
        [("X-RateLimit-Limit", toString settings.rate_limit_per_minute),
         ("X-RateLimit-Remaining", "0"),
         ("X-RateLimit-Reset", toString ((50 : ℤ) + 60))]⟩ ∧
    (100 : ℤ) < 50 + 60 :=
  rate_reject_hint settings
    [("u:GET:/api/v1/users", [50, 51, 52, 53, 54, 55, 56, 57, 58, 59])]
    "GET" "/api/v1/users" "u" 100 50 [51, 52, 53, 54, 55, 56, 57, 58, 59]
    (by decide) (by decide)

/-- C3 counterexample: on a malformed (non-bcrypt-shaped) hash string,
password verification raises (bcrypt's ValueError propagates out of
`verify_password`, which has no exception handling) instead of returning
false. -/
theorem verify_password_raises_counterexample :
    verify_password (fun _ _ => false) "password" "nothash" =
      .error PyErr.valueError ∧
    verify_password (fun _ _ => false) "password" "nothash" ≠ .ok false := by
  decide

/-- C3 (amended): for every password and hash string, verification returns
the digest comparison outcome when the hash is bcrypt-shaped, and raises
(propagates bcrypt's ValueError) when the hash is malformed — it does not
return false on malformed input. -/
theorem verify_password_behavior (matcher : Matcher) (pw h : String) :
    (isBcryptShaped h = true → verify_password matcher pw h = .ok (matcher pw h)) ∧
    (isBcryptShaped h = false → verify_password matcher pw h = .error .valueError) := by
  unfold verify_password bcrypt_checkpw
  constructor <;> intro hh <;> simp [hh]

/-- Witness for the amended C3 at a concrete input. -/
theorem verify_password_behavior_witness :
    verify_password (fun _ _ => true) "pw" "badhash" = .error .valueError :=
  (verify_password_behavior (fun _ _ => true) "pw" "badhash").2 (by decide)

/-- C4: for all (user_id, tenant_id, username, role), issuing an access
token and validating it at any time strictly before its expiry yields a
principal whose user_id, tenant_id, username and role equal the issued
values. -/
theorem access_roundtrip (user_id tenant_id username role : String)
    (issued now : ℤ)
    (h : now < issued + settings.access_token_expire_minutes * 60) :
    get_current_user
        (some ("Bearer", create_access_token user_id tenant_id username role issued))
        now =
      .ok ⟨user_id, tenant_id, username, role,
           issued + settings.access_token_expire_minutes * 60⟩ := by
  have hb : strLower "Bearer" = "bearer" := by decide
  have hexp : ¬ (issued + (settings.access_token_expire_minutes : ℤ) * 60 ≤ now) :=
    not_le.mpr h
  simp [get_current_user, decode_token, create_access_token, hb, hexp]

/-- Witness for C4 at a concrete input. -/
theorem access_roundtrip_witness :
    get_current_user
        (some ("Bearer", create_access_token "u1" "t1" "alice" "admin" 0)) 5 =
      .ok ⟨"u1", "t1", "alice", "admin",
           0 + settings.access_token_expire_minutes * 60⟩ :=
  access_roundtrip "u1" "t1" "alice" "admin" 0 5 (by decide)

/-- C5: in refresh validation the decode check (signature, then expiry)
precedes the kind check and the revocation lookup: a well-signed expired
refresh token fails with the Expired error even when it is in the revocation
set; a well-signed unexpired token of a non-refresh kind fails with the
wrong-kind error; and the Revoked error only arises for a well-signed,
unexpired, refresh-kind token that is in the revocation set. -/
theorem refresh_error_order (s : AppState) (t : Token) (now : ℤ) :
    (t.secret = settings.jwt_secret → t.payload.exp ≤ now →
      (refresh_tokens s t now).1 = .error ⟨401, "Token has expired", wwwAuth⟩) ∧
    (t.secret = settings.jwt_secret → now < t.payload.exp →
      t.payload.type ≠ "refresh" →
      (refresh_tokens s t now).1 = .error ⟨401, "Invalid token type", []⟩) ∧
    ((refresh_tokens s t now).1 = .error ⟨401, "Token has been revoked", []⟩ →
      t.secret = settings.jwt_secret ∧ now < t.payload.exp ∧
      t.payload.type = "refresh" ∧ t ∈ s.blacklisted_tokens) := by
  have hA : t.secret = settings.jwt_secret → t.payload.exp ≤ now →
      (refresh_tokens s t now).1 = .error ⟨401, "Token has expired", wwwAuth⟩ := by
    intro hs he
    unfold refresh_tokens decode_token
    simp [hs, he]
  have hB : t.secret = settings.jwt_secret → now < t.payload.exp →
      t.payload.type ≠ "refresh" →
      (refresh_tokens s t now).1 = .error ⟨401, "Invalid token type", []⟩ := by
    intro hs hlt hk
    unfold refresh_tokens decode_token
    simp [hs, not_le.mpr hlt, hk]
  refine ⟨hA, hB, ?_⟩
  intro h
  by_cases hs : t.secret = settings.jwt_secret
  · by_cases he : t.payload.exp ≤ now
    · rw [hA hs he] at h
      exact absurd h (by decide)
    · have hlt : now < t.payload.exp := not_le.mp he
      by_cases hk : t.payload.type = "refresh"
      · by_cases hm : t ∈ s.blacklisted_tokens
        · exact ⟨hs, hlt, hk, hm⟩
        · exfalso
          revert h
          unfold refresh_tokens decode_token
          simp only [hs, he, hk, hm, ne_eq, not_true_eq_false, not_false_eq_true,
            ite_false, ite_true, if_neg, if_pos]
          split <;> simp_all
          split <;> simp_all
      · rw [hB hs hlt hk] at h
        exact absurd h (by decide)
  · exfalso
    revert h
    unfold refresh_tokens decode_token
    simp [hs]

/-- Witness for C5 at a concrete input: an expired, blacklisted refresh
token is reported expired, not revoked. -/
theorem refresh_error_order_witness :
    (refresh_tokens
        { emptyState with blacklisted_tokens :=
            [⟨⟨"u1", "t1", none, none, 10, "refresh"⟩, settings.jwt_secret⟩] }
        ⟨⟨"u1", "t1", none, none, 10, "refresh"⟩, settings.jwt_secret⟩ 20).1 =
      .error ⟨401, "Token has expired", wwwAuth⟩ :=
  (refresh_error_order _ _ _).1 rfl (by decide)

/-- C6 counterexample: the test-only `/test/reset` operation removes tokens
from the revocation set — a consumed (revoked) refresh token is rejected
before the reset, and after a reset followed by a re-registration that
reuses the user id, the very same token string is accepted again. -/
theorem refresh_revocation_not_permanent_counterexample :
    (refresh_tokens
        { emptyState with blacklisted_tokens :=
            [⟨⟨"u1", "t1", none, none, 604800, "refresh"⟩, settings.jwt_secret⟩] }
        ⟨⟨"u1", "t1", none, none, 604800, "refresh"⟩, settings.jwt_secret⟩ 5).1 =
      .error ⟨401, "Token has been revoked", []⟩ ∧
    (refresh_tokens
        (step ⟨fun _ salt => salt, fun _ _ => true⟩
          (Op.register ⟨"Acme", "a@example.com", "alice", "password1"⟩ "t1" "u1" "s1" 0)
          (step ⟨fun _ salt => salt, fun _ _ => true⟩ Op.reset
            { emptyState with blacklisted_tokens :=
                [⟨⟨"u1", "t1", none, none, 604800, "refresh"⟩, settings.jwt_secret⟩] }))
        ⟨⟨"u1", "t1", none, none, 604800, "refresh"⟩, settings.jwt_secret⟩ 5).1 =
      .ok ⟨create_access_token "u1" "t1" "alice" "admin" 5,
           create_refresh_token "u1" "t1" 5,
           "bearer", settings.access_token_expire_minutes * 60⟩ := by
  decide

/-- C6 (amended): a first presentation of a valid (well-signed, unexpired,
refresh-kind), unrevoked refresh token for an existing active user succeeds,
returns a new access+refresh pair and inserts the presented token into the
revocation set within that same operation; a second presentation of that
token afterwards (still unexpired) fails with the Revoked error; and no
operation other than the test-only `/test/reset` (which clears all data)
ever removes a token from the revocation set. -/
theorem refresh_rotation (s : AppState) (t : Token) (u : UserRec)
    (now now2 : ℤ)
    (hsec : t.secret = settings.jwt_secret)
    (hkind : t.payload.type = "refresh")
    (hexp : now < t.payload.exp)
    (hexp2 : now2 < t.payload.exp)
    (hnb : t ∉ s.blacklisted_tokens)
    (huser : dget s.users_db t.payload.user_id = some u)
    (hact : u.is_active = true) :
    (refresh_tokens s t now).1 =
      .ok ⟨create_access_token u.id u.tenant_id u.username u.role now,
           create_refresh_token u.id u.tenant_id now,
           "bearer", settings.access_token_expire_minutes * 60⟩ ∧
    ((refresh_tokens s t now).2).blacklisted_tokens = t :: s.blacklisted_tokens ∧
    (refresh_tokens (refresh_tokens s t now).2 t now2).1 =
      .error ⟨401, "Token has been revoked", []⟩ ∧
    (∀ (crypto : Crypto) (op : Op) (s2 : AppState), op ≠ Op.reset →
      s2.blacklisted_tokens ⊆ (step crypto op s2).blacklisted_tokens) := by
  have h1 : refresh_tokens s t now =
      (.ok ⟨create_access_token u.id u.tenant_id u.username u.role now,
            create_refresh_token u.id u.tenant_id now,
            "bearer", settings.access_token_expire_minutes * 60⟩,
       { s with blacklisted_tokens := t :: s.blacklisted_tokens }) := by
    unfold refresh_tokens decode_token
    simp [hsec, not_le.mpr hexp, hkind, hnb, huser, hact]
  refine ⟨by rw [h1], by rw [h1], ?_, step_blacklist_mono⟩
  rw [h1]
  unfold refresh_tokens decode_token
  simp [hsec, not_le.mpr hexp2, hkind]

/-- Witness for the amended C6 at a concrete input. -/
theorem refresh_rotation_witness :
    (refresh_tokens
        { emptyState with users_db :=
            [("u1", ⟨"u1", "t1", "alice", "a@example.com", "Alice", "h",
                     "admin", 0, 0, true⟩)] }
        ⟨⟨"u1", "t1", none, none, 604800, "refresh"⟩, settings.jwt_secret⟩ 5).1 =
      .ok ⟨create_access_token "u1" "t1" "alice" "admin" 5,
           create_refresh_token "u1" "t1" 5,
           "bearer", settings.access_token_expire_minutes * 60⟩ :=
  (refresh_rotation _ _
    ⟨"u1", "t1", "alice", "a@example.com", "Alice", "h", "admin", 0, 0, true⟩
    5 6 rfl rfl (by decide) (by decide) (by decide) (by decide) rfl).1

/-- C7: every refresh token's claim set carries exactly user_id, tenant_id,
the expiry and the refresh kind — no username and no role — and the access
token a successful refresh returns carries the username and role of the user
record read at refresh time. -/
theorem refresh_claims_minimal (user_id tenant_id : String) (now0 : ℤ)
    (s : AppState) (t : Token) (u : UserRec) (now : ℤ)
    (hsec : t.secret = settings.jwt_secret)
    (hkind : t.payload.type = "refresh")
    (hexp : now < t.payload.exp)
    (hnb : t ∉ s.blacklisted_tokens)
    (huser : dget s.users_db t.payload.user_id = some u)
    (hact : u.is_active = true) :
    (create_refresh_token user_id tenant_id now0).payload =
      ⟨user_id, tenant_id, none, none,
       now0 + settings.refresh_token_expire_days * 86400, "refresh"⟩ ∧
    (∃ pair : TokenPair, (refresh_tokens s t now).1 = .ok pair ∧
      pair.access_token.payload.username = some u.username ∧
      pair.access_token.payload.role = some u.role) := by
  refine ⟨rfl,
    ⟨⟨create_access_token u.id u.tenant_id u.username u.role now,
      create_refresh_token u.id u.tenant_id now,
      "bearer", settings.access_token_expire_minutes * 60⟩, ?_, rfl, rfl⟩⟩
  unfold refresh_tokens decode_token
  simp [hsec, not_le.mpr hexp, hkind, hnb, huser, hact]

/-- Witness for C7 at a concrete input. -/
theorem refresh_claims_minimal_witness :
    (create_refresh_token "u9" "t9" 100).payload =
      ⟨"u9", "t9", none, none,
       100 + settings.refresh_token_expire_days * 86400, "refresh"⟩ :=
  (refresh_claims_minimal "u9" "t9" 100
    { emptyState with users_db :=
        [("u2", ⟨"u2", "t2", "bob", "b@example.com", "Bob", "h",
                 "user", 0, 0, true⟩)] }
    ⟨⟨"u2", "t2", none, none, 604800, "refresh"⟩, settings.jwt_secret⟩
    ⟨"u2", "t2", "bob", "b@example.com", "Bob", "h", "user", 0, 0, true⟩
    7 rfl rfl (by decide) (by decide) (by decide) rfl).1

/-- C8: at the tenant-scoped fetch endpoints (`get_user`, `download_file`),
an admitted request for a resource that exists but belongs to a different
tenant fails with exactly the same error value — status 404 and the same
detail string — as a request for an id that does not exist at all, so the
two runs are indistinguishable to the caller. -/
theorem tenant_isolation_not_found (s : AppState)
    (auth : Option (String × Token)) (uid fid : String) (now : ℤ)
    (cu : TokenData)
    (hcu : get_current_user auth now = .ok cu)
    (hrlU : (check_rate_limit settings s.rate_limit_store "GET"
        ("/api/v1/users/" ++ uid) cu.user_id now).1 = .ok ())
    (hrlF : (check_rate_limit settings s.rate_limit_store "GET"
        ("/api/v1/files/" ++ fid) cu.user_id now).1 = .ok ()) :
    (dget s.users_db uid = none →
      (get_user s auth uid now).1 = .error (userNotFound uid)) ∧
    (∀ u : UserRec, dget s.users_db uid = some u → u.tenant_id ≠ cu.tenant_id →
      (get_user s auth uid now).1 = .error (userNotFound uid)) ∧
    (dget s.files_db fid = none →
      (download_file s auth fid now).1 = .error (fileNotFound fid)) ∧
    (∀ f : FileRec, dget s.files_db fid = some f → f.tenant_id ≠ cu.tenant_id →
      (download_file s auth fid now).1 = .error (fileNotFound fid)) := by
  have hU2 : check_rate_limit settings s.rate_limit_store "GET"
      ("/api/v1/users/" ++ uid) cu.user_id now =
      (.ok (), (check_rate_limit settings s.rate_limit_store "GET"
        ("/api/v1/users/" ++ uid) cu.user_id now).2) := by
    rw [← hrlU]
  have hF2 : check_rate_limit settings s.rate_limit_store "GET"
      ("/api/v1/files/" ++ fid) cu.user_id now =
      (.ok (), (check_rate_limit settings s.rate_limit_store "GET"
        ("/api/v1/files/" ++ fid) cu.user_id now).2) := by
    rw [← hrlF]
  refine ⟨?_, ?_, ?_, ?_⟩
  · intro h
    unfold get_user authedStep
    rw [hcu]
    dsimp only
    rw [hU2]
    simp [h]
  · intro u hu hne
    unfold get_user authedStep
    rw [hcu]
    dsimp only
    rw [hU2]
    simp [hu, hne]
  · intro h
    unfold download_file authedStep
    rw [hcu]
    dsimp only
    rw [hF2]
    simp [h]
  · intro f hf hne
    unfold download_file authedStep
    rw [hcu]
    dsimp only
    rw [hF2]
    simp [hf, hne]

/-- Witness for C8 at a concrete input: a requester of tenant tA sees the
same 404 for a user of tenant tB as for a nonexistent user, and likewise for
files. -/
theorem tenant_isolation_not_found_witness :
    (get_user
        { emptyState with users_db :=
            [("u2", ⟨"u2", "tB", "bob", "b@example.com", "Bob", "h",
                     "user", 0, 0, true⟩)] }
        (some ("Bearer", create_access_token "u1" "tA" "alice" "admin" 0))
        "u2" 5).1 = .error (userNotFound "u2") ∧
    (get_user
        { emptyState with users_db :=
            [("u2", ⟨"u2", "tB", "bob", "b@example.com", "Bob", "h",
                     "user", 0, 0, true⟩)] }
        (some ("Bearer", create_access_token "u1" "tA" "alice" "admin" 0))
        "ghost" 5).1 = .error (userNotFound "ghost") := by
  constructor
  · exact (tenant_isolation_not_found _ _ "u2" "f" 5
      ⟨"u1", "tA", "alice", "admin",
       0 + settings.access_token_expire_minutes * 60⟩
      (by decide) (by decide) (by decide)).2.1
      ⟨"u2", "tB", "bob", "b@example.com", "Bob", "h", "user", 0, 0, true⟩
      (by decide) (by decide)
  · exact (tenant_isolation_not_found _ _ "ghost" "f" 5
      ⟨"u1", "tA", "alice", "admin",
       0 + settings.access_token_expire_minutes * 60⟩
      (by decide) (by decide) (by decide)).1 (by decide)

/-- C9 counterexample: the `/test/reset` operation the program exposes
shrinks the revoked-token set — a token in the set before the operation is
gone after it. -/
theorem blacklist_cleared_by_reset_counterexample :
    (⟨⟨"u1", "t1", none, none, 1000, "refresh"⟩, settings.jwt_secret⟩ : Token) ∈
      ({ emptyState with blacklisted_tokens :=
          [⟨⟨"u1", "t1", none, none, 1000, "refresh"⟩, settings.jwt_secret⟩] } :
        AppState).blacklisted_tokens ∧
    (⟨⟨"u1", "t1", none, none, 1000, "refresh"⟩, settings.jwt_secret⟩ : Token) ∉
      (step ⟨fun _ salt => salt, fun _ _ => true⟩ Op.reset
        { emptyState with blacklisted_tokens :=
            [⟨⟨"u1", "t1", none, none, 1000, "refresh"⟩, settings.jwt_secret⟩] }
        ).blacklisted_tokens := by
  decide

/-- C9 (amended): for every operation the program exposes except the
test-only `/test/reset`, the revoked-token set after the operation is a
superset of the set before it. -/
theorem blacklist_monotone_except_reset (crypto : Crypto) (op : Op)
    (s : AppState) (hop : op ≠ Op.reset) :
    s.blacklisted_tokens ⊆ (step crypto op s).blacklisted_tokens :=
  step_blacklist_mono crypto op s hop

/-- Witness for the amended C9 at a concrete input. -/
theorem blacklist_monotone_except_reset_witness :
    ({ emptyState with blacklisted_tokens :=
        [⟨⟨"u1", "t1", none, none, 1000, "refresh"⟩, settings.jwt_secret⟩] } :
      AppState).blacklisted_tokens ⊆
    (step ⟨fun _ salt => salt, fun _ _ => true⟩ Op.health
      { emptyState with blacklisted_tokens :=
          [⟨⟨"u1", "t1", none, none, 1000, "refresh"⟩, settings.jwt_secret⟩] }
      ).blacklisted_tokens :=
  blacklist_monotone_except_reset ⟨fun _ salt => salt, fun _ _ => true⟩ Op.health
    { emptyState with blacklisted_tokens :=
        [⟨⟨"u1", "t1", none, none, 1000, "refresh"⟩, settings.jwt_secret⟩] }
    (by decide)

/-- C10: a logout call leaves the whole application state — in particular
the revocation set — unchanged, it succeeds for a valid access token, and
every state-dependent validation (the refresh path) behaves after logout
exactly as before. Access-token validation reads no state at all, so it is
unchanged a fortiori. -/
theorem logout_frame (s : AppState) (auth : Option (String × Token)) (now : ℤ) :
    (logout s auth now).2 = s ∧
    ((logout s auth now).2).blacklisted_tokens = s.blacklisted_tokens ∧
    (∀ cu : TokenData, get_current_user auth now = .ok cu →
      (logout s auth now).1 = .ok "Logged out successfully") ∧
    (∀ (t : Token) (n : ℤ),
      refresh_tokens (logout s auth now).2 t n = refresh_tokens s t n) := by
  refine ⟨rfl, rfl, ?_, fun t n => rfl⟩
  intro cu hcu
  unfold logout
  rw [hcu]

/-- Witness for C10 at a concrete input. -/
theorem logout_frame_witness :
    (logout
        { emptyState with blacklisted_tokens :=
            [⟨⟨"u1", "t1", none, none, 1000, "refresh"⟩, settings.jwt_secret⟩] }
        (some ("Bearer", create_access_token "u1" "t1" "alice" "admin" 0)) 5).2 =
      { emptyState with blacklisted_tokens :=
          [⟨⟨"u1", "t1", none, none, 1000, "refresh"⟩, settings.jwt_secret⟩] } :=
  (logout_frame _ _ _).1

end SampleApi
